import Mathlib

/-!
# Verification of the CatalogIA semantic search / recommendation core

Shallow embedding of the vector-similarity ranking and recommendation
subsystem of the catalog backend (`app/crud/product.py` and
`app/services/embeddings.py`).

Modelling choices:
* Python floats are modelled as rationals (`ℚ`); all the verified claims are
  about exact arithmetic (means, thresholds, comparisons), not rounding.
* Python strings are modelled as lists of characters (`PyStr`), since the
  query-preprocessing code operates on whitespace runs and case of
  individual characters.
* The SQLAlchemy/pgvector query pipeline is modelled over an in-memory row
  list: a chain of `.filter` calls is a `List.filter` chain, `order_by desc`
  is a sort by the ranking key descending, `.limit` is `List.take`.
  A datastore failure (an exception raised while executing the query) is an
  `Except.error` value of the `Db` argument.
* The cosine-similarity expression `1 - cosine_distance(col, vec)` is
  evaluated by the external vector index, so it is an abstract parameter
  `simOf : Embedding → Embedding → ℚ`.
* The embedding provider (`embedding_service.generate_embedding`) is an
  abstract parameter of type `Provider`; a raised `RuntimeError` is the
  `Except.error` case.
-/

namespace CatalogIA

/-- A Python string, modelled as its sequence of characters. -/
abbrev PyStr := List Char

/-- An embedding vector: a list of float components, modelled over `ℚ`. -/
abbrev Embedding := List ℚ

/-- The fields of `app.models.product.Product` that the search and
recommendation core reads: identity, the structural-filter columns, the
popularity rating and the (nullable) stored embedding. -/
structure Product where
  id : ℕ
  category : Option String
  price : ℚ
  rating : ℚ
  product_embedding : Option Embedding
deriving DecidableEq, Repr

/-- The embedding provider `embedding_service.generate_embedding`:
input text and the `is_query` flag, returning either the vector or the
raised `RuntimeError`. -/
abbrev Provider := PyStr → Bool → Except String Embedding

/-- The product table as seen by one request: either the rows, or a
datastore error raised while executing a query against it. -/
abbrev Db := Except String (List Product)

/-! ## Python string helpers (faithful to `str.strip`, `str.split`,
`str.lower`, `" ".join`) -/

/-- Python `str.rstrip()` (whitespace form): remove trailing whitespace. -/
def py_rstrip : PyStr → PyStr
  | [] => []
  | c :: cs =>
    let r := py_rstrip cs
    if r = [] ∧ c.isWhitespace then [] else c :: r

/-- Python `str.strip()` (whitespace form): remove leading and trailing
whitespace. -/
def py_strip (s : PyStr) : PyStr :=
  py_rstrip (s.dropWhile Char.isWhitespace)

/-- Worker for `py_split`: `acc` is the reversed current word. -/
def py_split_aux : PyStr → PyStr → List PyStr
  | [], acc => if acc = [] then [] else [acc.reverse]
  | c :: cs, acc =>
    if c.isWhitespace then
      if acc = [] then py_split_aux cs []
      else acc.reverse :: py_split_aux cs []
    else py_split_aux cs (c :: acc)

/-- Python `str.split()` with no argument: split on runs of whitespace,
discarding empty parts. -/
def py_split (s : PyStr) : List PyStr :=
  py_split_aux s []

/-- Python `" ".join(parts)`. -/
def py_join_space : List PyStr → PyStr
  | [] => []
  | [w] => w
  | w :: rest => w ++ ' ' :: py_join_space rest

/-- Python `str.lower()` (ASCII case folding). -/
def py_lower (s : PyStr) : PyStr :=
  s.map Char.toLower

/-! ## `CRUDProduct._preprocess_query` -/

/-- `CRUDProduct._preprocess_query`: `" ".join(query_text.strip().split())`
followed by `.lower()`; the empty string maps to itself. -/
def _preprocess_query (query_text : PyStr) : PyStr :=
  if query_text = [] then []
  else py_lower (py_join_space (py_split (py_strip query_text)))

/-! ## Ranking pipeline building blocks -/

/-- The optional `Product.category == category` filter of the SQL queries;
in Python an empty-string category is falsy, so the filter is skipped
both for `None` and for `""`. -/
def categoryFilter (category : Option String) (p : Product) : Bool :=
  match category with
  | none => true
  | some c => if c = "" then true else p.category == some c

/-- The optional `Product.price >= min_price` filter (applied whenever
`min_price is not None`). -/
def minPriceFilter (min_price : Option ℚ) (p : Product) : Bool :=
  match min_price with
  | none => true
  | some m => decide (m ≤ p.price)

/-- The optional `Product.price <= max_price` filter (applied whenever
`max_price is not None`). -/
def maxPriceFilter (max_price : Option ℚ) (p : Product) : Bool :=
  match max_price with
  | none => true
  | some m => decide (p.price ≤ m)

/-- `ORDER BY similarity DESC` over scored rows. -/
def sortByScoreDesc (l : List (Product × ℚ)) : List (Product × ℚ) :=
  l.insertionSort (fun a b => b.2 ≤ a.2)

/-- `ORDER BY Product.rating DESC`. -/
def sortByRatingDesc (l : List Product) : List Product :=
  l.insertionSort (fun a b => b.rating ≤ a.rating)

/-- Score each candidate, rank by score descending and truncate to
`limit`: the tail of every ranking query in the module
(`.order_by(similarity_expr.desc()).limit(limit).all()` followed by the
`[(product, float(similarity)) for ...]` comprehension). -/
def rank_products (similarity : Product → ℚ) (candidates : List Product)
    (limit : ℕ) : List (Product × ℚ) :=
  (sortByScoreDesc (candidates.map (fun p => (p, similarity p)))).take limit

/-! ## `CRUDProduct.semantic_search` -/

/-- The `try/except` wrapper of `get_personalized_recommendations`: any
error raised by the body is caught and converted into the empty result
list, returned as a success. -/
def run_caught (b : Except String (List (Product × ℚ))) :
    List (Product × ℚ) :=
  match b with
  | .ok r => r
  | .error _ => []

/-- `Product.product_embedding.isnot(None)`: the base filter of the
semantic-search query. -/
def embedded_rows (rows : List Product) : List Product :=
  rows.filter (fun p => p.product_embedding.isSome)

/-- `if min_similarity > 0: query.filter(similarity_expr >= min_similarity)`. -/
def similarity_filtered (similarity : Product → ℚ) (rows : List Product)
    (min_similarity : ℚ) : List Product :=
  if 0 < min_similarity then
    (embedded_rows rows).filter (fun p => decide (min_similarity ≤ similarity p))
  else embedded_rows rows

/-- The full candidate set of the semantic-search query: the similarity
threshold (when requested) followed by the optional category and price
filters. -/
def search_candidates (similarity : Product → ℚ) (rows : List Product)
    (category : Option String) (min_price max_price : Option ℚ)
    (min_similarity : ℚ) : List Product :=
  (((similarity_filtered similarity rows min_similarity).filter
    (categoryFilter category)).filter
    (minPriceFilter min_price)).filter (maxPriceFilter max_price)

/-- `CRUDProduct.semantic_search`.  The provider and the similarity
measure of the vector index are abstract parameters; the `try/except`
wrapper that converts any raised error into `[]` is the `match` on the
fallible steps. -/
def semantic_search (provider : Provider) (simOf : Embedding → Embedding → ℚ)
    (db : Db) (query_text : PyStr) (limit : ℕ) (category : Option String)
    (min_price max_price : Option ℚ) (min_similarity : ℚ) :
    List (Product × ℚ) :=
  -- `if not query_text or not query_text.strip(): return []`
  if query_text = [] ∨ py_strip query_text = [] then []
  else
    -- `generate_embedding(processed_query, is_query=True)`; a raised
    -- RuntimeError is caught by the `except` clause and yields `[]`
    match provider (_preprocess_query query_text) true with
    | .error _ => []
    | .ok query_embedding =>
      match db with
      | .error _ => []  -- a datastore error is likewise caught, yielding `[]`
      | .ok rows =>
        rank_products
          (fun p : Product => simOf (p.product_embedding.getD []) query_embedding)
          (search_candidates
            (fun p : Product => simOf (p.product_embedding.getD []) query_embedding)
            rows category min_price max_price min_similarity)
          limit

/-! ## `CRUDProduct._recommend_by_semantic_similarity` and friends -/

/-- `[p.product_embedding for p in wishlist_products if p.product_embedding is not None]`. -/
def wishlist_embeddings (wishlist_products : List Product) : List Embedding :=
  wishlist_products.filterMap (fun p => p.product_embedding)

/-- Python `zip(*embeddings)`: transpose, truncated at the shortest list. -/
def zipStar : List (List ℚ) → List (List ℚ)
  | [] => []
  | [l] => l.map (fun x => [x])
  | l :: ls => List.zipWith (fun x t => x :: t) l (zipStar ls)

/-- The centroid `[sum(dim) / len(embeddings) for dim in zip(*embeddings)]`. -/
def avg_embedding (embeddings : List Embedding) : Embedding :=
  (zipStar embeddings).map (fun dim => dim.sum / (embeddings.length : ℚ))

/-- The eligibility conditions shared by the count query and the ranking
queries of `_recommend_by_semantic_similarity`:
`Product.product_embedding.isnot(None), ~Product.id.in_(exclude_ids)`. -/
def eligible_products (rows : List Product) (exclude_ids : List ℕ) :
    List Product :=
  rows.filter (fun p => p.product_embedding.isSome && !(exclude_ids.contains p.id))

/-- The adaptive threshold of `_recommend_by_semantic_similarity`
(lines 320–323): for small candidate sets the requested threshold is
relaxed to `max(0.05, min_similarity * 0.5)`. -/
def effective_threshold (total_available : ℕ) (min_similarity : ℚ) : ℚ :=
  if total_available < 20 ∧ 0 < min_similarity then
    max 0.05 (min_similarity * 0.5)
  else min_similarity

/-- The thresholded candidate set of `_recommend_by_semantic_similarity`:
`if effective_threshold > 0: query.filter(similarity_expr >= effective_threshold)`,
where the effective threshold is the adaptive one computed from the
count `total_available` of eligible candidates. -/
def threshold_filtered (similarity : Product → ℚ) (rows : List Product)
    (exclude_ids : List ℕ) (min_similarity : ℚ) : List Product :=
  if 0 < effective_threshold (eligible_products rows exclude_ids).length
      min_similarity then
    (eligible_products rows exclude_ids).filter (fun p =>
      decide (effective_threshold (eligible_products rows exclude_ids).length
        min_similarity ≤ similarity p))
  else eligible_products rows exclude_ids

/-- The ranking part of `_recommend_by_semantic_similarity` once the
centroid exists and the database query succeeded: rank the thresholded
candidates, and — secondary fallback — if that gives zero results while
the effective threshold was positive, re-run the same ranking query over
the eligible candidates with no threshold at all. -/
def semantic_ranking (similarity : Product → ℚ) (rows : List Product)
    (exclude_ids : List ℕ) (limit : ℕ) (min_similarity : ℚ) :
    List (Product × ℚ) :=
  if rank_products similarity
      (threshold_filtered similarity rows exclude_ids min_similarity) limit = [] ∧
      0 < effective_threshold (eligible_products rows exclude_ids).length
        min_similarity then
    rank_products similarity (eligible_products rows exclude_ids) limit
  else
    rank_products similarity
      (threshold_filtered similarity rows exclude_ids min_similarity) limit

/-- `CRUDProduct._recommend_by_semantic_similarity`.  Runs inside the
`try` of `get_personalized_recommendations`, so a datastore error
propagates to the caller as an `Except.error`. -/
def _recommend_by_semantic_similarity (simOf : Embedding → Embedding → ℚ)
    (db : Db) (wishlist_products : List Product) (exclude_ids : List ℕ)
    (limit : ℕ) (min_similarity : ℚ) :
    Except String (List (Product × ℚ)) :=
  let embeddings := wishlist_embeddings wishlist_products
  if embeddings = [] then .ok []  -- `if not embeddings: return []`
  else
    match db with
    | .error e => .error e
    | .ok rows =>
      -- similarity to the centroid `avg_embedding` of the wishlist
      .ok (semantic_ranking
        (fun p : Product =>
          simOf (p.product_embedding.getD []) (avg_embedding embeddings))
        rows exclude_ids limit min_similarity)

/-- `Counter(categories).most_common(1)[0][0]`: the value with the largest
multiplicity; on ties, the one first inserted into the counter (CPython
counters preserve first-insertion order and `most_common` sorts stably). -/
def mostCommon (l : List String) : Option String :=
  l.foldl (fun best c =>
    match best with
    | none => some c
    | some b => if l.count b < l.count c then some c else some b) none

/-- `CRUDProduct._recommend_by_category`. -/
def _recommend_by_category (db : Db) (wishlist_products : List Product)
    (exclude_ids : List ℕ) (limit : ℕ) :
    Except String (List (Product × ℚ)) :=
  -- `[p.category for p in wishlist_products if p.category]` (truthiness:
  -- both a missing category and an empty-string category are dropped)
  let categories := (wishlist_products.filterMap (fun p => p.category)).filter (· ≠ "")
  match mostCommon categories with
  | none => .ok []  -- `if not categories: return []`
  | some most_common_category =>
    match db with
    | .error e => .error e
    | .ok rows =>
      let selected := rows.filter (fun p =>
        p.category == some most_common_category && !(exclude_ids.contains p.id))
      .ok (((sortByRatingDesc selected).take limit).map
        (fun p => (p, p.rating / 5)))

/-- `CRUDProduct._get_popular_products`: top-`limit` products by rating
descending, scored `rating / 5.0`. -/
def _get_popular_products (db : Db) (limit : ℕ) :
    Except String (List (Product × ℚ)) :=
  match db with
  | .error e => .error e
  | .ok rows =>
    .ok (((sortByRatingDesc rows).take limit).map (fun p => (p, p.rating / 5)))

/-- `CRUDProduct.get_personalized_recommendations`.  The `provider`
argument models the ambient `embedding_service` singleton that is in
scope in the module; this code path never invokes it (the centroid is
built from the embeddings already stored on the wishlist products).  The
`try/except` wrapper converts any error raised by the helpers into `[]`. -/
def get_personalized_recommendations (provider : Provider)
    (simOf : Embedding → Embedding → ℚ) (db : Db)
    (user_wishlist_products : List Product)
    (user_purchased_product_ids : List ℕ) (limit : ℕ)
    (min_similarity : ℚ) (strategy : String) : List (Product × ℚ) :=
  let body : Except String (List (Product × ℚ)) :=
    if user_wishlist_products = [] then
      _get_popular_products db limit
    else
      -- `exclude_ids = [p.id for p in wishlist]`, extended by the
      -- purchased ids when supplied (`None` is modelled as `[]`;
      -- extending by `[]` is the identity, matching the truthiness test)
      let exclude_ids := user_wishlist_products.map (fun p => p.id) ++
        user_purchased_product_ids
      if strategy = "semantic" ∨ strategy = "hybrid" then
        _recommend_by_semantic_similarity simOf db user_wishlist_products
          exclude_ids limit min_similarity
      else if strategy = "category" then
        _recommend_by_category db user_wishlist_products exclude_ids limit
      else
        -- unknown strategy: logged as a warning, then treated as semantic
        _recommend_by_semantic_similarity simOf db user_wishlist_products
          exclude_ids limit min_similarity
  run_caught body

/-! ## `EmbeddingService.generate_embedding` -/

/-- The decoded Ollama `/api/embed` HTTP response:
`response.status_code` and `data["embeddings"]`. -/
structure OllamaResponse where
  status_code : ℕ
  embeddings : List Embedding
deriving DecidableEq, Repr

/-- `EmbeddingService.EMBEDDING_DIMENSION`. -/
def EMBEDDING_DIMENSION : ℕ := 768

/-- `EmbeddingService.generate_embedding`.  `ollama_available` is the
result of `_check_ollama()`; `post` is the outcome of the HTTP POST for
the prefixed text (`Except.error` for a timeout or connection error).
The `is_query` flag only selects the text prefix sent to the provider,
which is absorbed into `post`.  On a 200 response the vector
`data["embeddings"][0]` is returned as-is: the dimension validation at
lines 121–125 only logs a warning and does not reject the vector. -/
def generate_embedding (ollama_available : Bool)
    (post : Except String OllamaResponse) (text : PyStr)
    (is_query : Bool) : Except String Embedding :=
  if text = [] ∨ py_strip text = [] then
    -- empty text: return a zero vector of the configured dimension
    .ok (List.replicate EMBEDDING_DIMENSION 0)
  else if ¬ ollama_available then
    .error "Ollama no esta disponible o el modelo no esta instalado"
  else
    match post with
    | .error e => .error e  -- Timeout / RequestException, re-raised as RuntimeError
    | .ok response =>
      if response.status_code = 200 then
        match response.embeddings with
        | [] => .error "IndexError"  -- `data[embeddings][0]` on an empty list
        | embedding :: _ =>
          -- dimension check: `logger.warning(...)` only, then `return embedding`
          .ok embedding
      else .error "Error al generar embedding"

/-! ## Order-theoretic facts about the ranking relations -/

instance : IsTotal (Product × ℚ) (fun a b => b.2 ≤ a.2) :=
  ⟨fun a b => le_total b.2 a.2⟩

instance : IsTrans (Product × ℚ) (fun a b => b.2 ≤ a.2) :=
  ⟨fun _ _ _ h₁ h₂ => le_trans h₂ h₁⟩

instance : IsTotal Product (fun a b => b.rating ≤ a.rating) :=
  ⟨fun a b => le_total b.rating a.rating⟩

instance : IsTrans Product (fun a b => b.rating ≤ a.rating) :=
  ⟨fun _ _ _ h₁ h₂ => le_trans h₂ h₁⟩

theorem sorted_sortByScoreDesc (l : List (Product × ℚ)) :
    List.Sorted (fun a b : Product × ℚ => b.2 ≤ a.2) (sortByScoreDesc l) :=
  List.sorted_insertionSort _ l

theorem sorted_sortByRatingDesc (l : List Product) :
    List.Sorted (fun a b : Product => b.rating ≤ a.rating) (sortByRatingDesc l) :=
  List.sorted_insertionSort _ l

theorem mem_sortByScoreDesc {x : Product × ℚ} {l : List (Product × ℚ)} :
    x ∈ sortByScoreDesc l ↔ x ∈ l :=
  List.mem_insertionSort _

theorem length_sortByScoreDesc (l : List (Product × ℚ)) :
    (sortByScoreDesc l).length = l.length :=
  List.length_insertionSort _ l

theorem length_sortByRatingDesc (l : List Product) :
    (sortByRatingDesc l).length = l.length :=
  List.length_insertionSort _ l

theorem rank_products_length_le (similarity : Product → ℚ)
    (candidates : List Product) (limit : ℕ) :
    (rank_products similarity candidates limit).length ≤ limit := by
  rw [rank_products]
  exact le_trans (Nat.le_of_eq (List.length_take _ _)) (min_le_left _ _)

theorem rank_products_sorted (similarity : Product → ℚ)
    (candidates : List Product) (limit : ℕ) :
    List.Sorted (fun a b : Product × ℚ => b.2 ≤ a.2)
      (rank_products similarity candidates limit) :=
  (sorted_sortByScoreDesc _).sublist (List.take_sublist _ _)

theorem mem_rank_products {x : Product × ℚ} {similarity : Product → ℚ}
    {candidates : List Product} {limit : ℕ}
    (hx : x ∈ rank_products similarity candidates limit) :
    x.1 ∈ candidates ∧ x.2 = similarity x.1 := by
  rw [rank_products] at hx
  have hx₂ := mem_sortByScoreDesc.mp (List.take_subset _ _ hx)
  obtain ⟨p, hp, rfl⟩ := List.mem_map.mp hx₂
  exact ⟨hp, rfl⟩

theorem rank_products_ne_nil (similarity : Product → ℚ)
    {candidates : List Product} {limit : ℕ}
    (hc : candidates ≠ []) (hl : 0 < limit) :
    rank_products similarity candidates limit ≠ [] := by
  have hlen : (rank_products similarity candidates limit).length ≠ 0 := by
    rw [rank_products, List.length_take, length_sortByScoreDesc,
      List.length_map]
    have : 0 < candidates.length := List.length_pos.mpr hc
    omega
  exact fun h => hlen (by rw [h]; rfl)

/-! ## Theorems for the claims -/

/-- C2: in semantic/hybrid recommendation, if the count of eligible
candidates is below 20 and the requested `min_similarity` is positive,
the effective ranking threshold is `max(0.05, min_similarity * 0.5)`;
otherwise it is the requested `min_similarity`.  In particular, with 12
eligible candidates and `min_similarity = 0.4` it is `0.2`. -/
theorem adaptive_threshold_spec (n : ℕ) (min_similarity : ℚ) :
    (n < 20 ∧ 0 < min_similarity →
      effective_threshold n min_similarity = max 0.05 (min_similarity * 0.5)) ∧
    (¬ (n < 20 ∧ 0 < min_similarity) →
      effective_threshold n min_similarity = min_similarity) ∧
    effective_threshold 12 0.4 = 0.2 := by
  refine ⟨fun h => ?_, fun h => ?_, ?_⟩
  · rw [effective_threshold, if_pos h]
  · rw [effective_threshold, if_neg h]
  · rw [effective_threshold, if_pos (by norm_num)]
    norm_num

unseal Rat.add Rat.mul Rat.inv Rat.ofScientific in
theorem adaptive_threshold_spec_witness :
    effective_threshold 12 0.4 = max 0.05 (0.4 * 0.5) ∧
    effective_threshold 25 0.4 = 0.4 :=
  ⟨(adaptive_threshold_spec 12 0.4).1 (by decide),
    (adaptive_threshold_spec 25 0.4).2.1 (by decide)⟩

/-- C10: `get_personalized_recommendations` never invokes the embedding
provider: its result is the same whatever function the ambient
`embedding_service.generate_embedding` is, for every interest set,
strategy and parameter combination, so recommendations do not depend on
the embedding backend being up. -/
theorem recommendations_independent_of_provider
    (provider₁ provider₂ : Provider) (simOf : Embedding → Embedding → ℚ)
    (db : Db) (wishlist : List Product) (purchased : List ℕ) (limit : ℕ)
    (min_similarity : ℚ) (strategy : String) :
    get_personalized_recommendations provider₁ simOf db wishlist purchased
      limit min_similarity strategy =
    get_personalized_recommendations provider₂ simOf db wishlist purchased
      limit min_similarity strategy := rfl

/-- C9: with a non-empty interest set, any strategy string outside
`{"semantic", "category", "hybrid"}` produces exactly the result of the
same call with `strategy = "semantic"`. -/
theorem unknown_strategy_behaves_as_semantic (provider : Provider)
    (simOf : Embedding → Embedding → ℚ) (db : Db)
    (wishlist : List Product) (purchased : List ℕ) (limit : ℕ)
    (min_similarity : ℚ) (strategy : String)
    (hw : wishlist ≠ []) (h₁ : strategy ≠ "semantic")
    (h₂ : strategy ≠ "category") (h₃ : strategy ≠ "hybrid") :
    get_personalized_recommendations provider simOf db wishlist purchased
      limit min_similarity strategy =
    get_personalized_recommendations provider simOf db wishlist purchased
      limit min_similarity "semantic" := by
  rw [get_personalized_recommendations, get_personalized_recommendations]
  simp [h₁, h₂, h₃]

theorem unknown_strategy_behaves_as_semantic_witness :
    get_personalized_recommendations (fun _ _ => .error "backend down")
      (fun _ _ => 0) (.ok []) [⟨1, none, 1, 1, none⟩] [] 10 0
      "unknown_value" =
    get_personalized_recommendations (fun _ _ => .error "backend down")
      (fun _ _ => 0) (.ok []) [⟨1, none, 1, 1, none⟩] [] 10 0 "semantic" :=
  unknown_strategy_behaves_as_semantic _ _ _ _ _ _ _ _
    (by decide) (by decide) (by decide) (by decide)

/-- C7: with an empty interest set, the recommendation result is the
popularity fallback — the top-`limit` products by rating descending,
each scored `rating / 5` — for every provider (the embedding provider is
not invoked) and every strategy argument; moreover that result is sorted
by score descending and has at most `limit` entries. -/
theorem empty_wishlist_popularity_fallback (provider : Provider)
    (simOf : Embedding → Embedding → ℚ) (rows : List Product)
    (purchased : List ℕ) (limit : ℕ) (min_similarity : ℚ)
    (strategy : String) :
    get_personalized_recommendations provider simOf (.ok rows) [] purchased
        limit min_similarity strategy =
      ((sortByRatingDesc rows).take limit).map (fun p => (p, p.rating / 5)) ∧
    List.Sorted (fun a b : Product × ℚ => b.2 ≤ a.2)
      (get_personalized_recommendations provider simOf (.ok rows) []
        purchased limit min_similarity strategy) ∧
    (get_personalized_recommendations provider simOf (.ok rows) [] purchased
        limit min_similarity strategy).length ≤ limit := by
  have heq : get_personalized_recommendations provider simOf (.ok rows) []
      purchased limit min_similarity strategy =
      ((sortByRatingDesc rows).take limit).map (fun p => (p, p.rating / 5)) := by
    rw [get_personalized_recommendations]
    simp [_get_popular_products, run_caught]
  refine ⟨heq, ?_, ?_⟩
  · rw [heq, List.Sorted, List.pairwise_map]
    have hs : List.Pairwise (fun a b : Product => b.rating ≤ a.rating)
        ((sortByRatingDesc rows).take limit) :=
      (sorted_sortByRatingDesc rows).sublist (List.take_sublist _ _)
    exact hs.imp (fun h => by
      simpa using div_le_div_of_nonneg_right h (by norm_num : (0:ℚ) ≤ 5))
  · rw [heq, List.length_map, List.length_take]
    exact min_le_left _ _

theorem run_caught_empty (b : Except String (List (Product × ℚ)))
    (h : b = .ok [] ∨ ∃ e, b = .error e) : run_caught b = [] := by
  rcases h with h | ⟨e, h⟩ <;> simp [h, run_caught]

/-- C6: `semantic_search` and `get_personalized_recommendations` convert
every failure raised inside them into an empty result list returned as a
success: a datastore error makes both return `[]`, and a `RuntimeError`
raised by embedding generation makes `semantic_search` return `[]`. -/
theorem search_and_recommendations_never_raise (provider : Provider)
    (simOf : Embedding → Embedding → ℚ) (db : Db) (query_text : PyStr)
    (limit : ℕ) (category : Option String) (min_price max_price : Option ℚ)
    (min_similarity : ℚ) (wishlist : List Product) (purchased : List ℕ)
    (limit₂ : ℕ) (min_similarity₂ : ℚ) (strategy : String) (msg : String) :
    (semantic_search provider simOf (.error msg) query_text limit category
      min_price max_price min_similarity = []) ∧
    (provider (_preprocess_query query_text) true = .error msg →
      semantic_search provider simOf db query_text limit category
        min_price max_price min_similarity = []) ∧
    (get_personalized_recommendations provider simOf (.error msg) wishlist
      purchased limit₂ min_similarity₂ strategy = []) := by
  refine ⟨?_, fun hp => ?_, ?_⟩
  · rw [semantic_search]
    split
    · rfl
    · cases hp : provider (_preprocess_query query_text) true <;> simp [hp]
  · rw [semantic_search]
    split
    · rfl
    · simp [hp]
  · simp only [get_personalized_recommendations, _get_popular_products,
      _recommend_by_semantic_similarity, _recommend_by_category]
    apply run_caught_empty
    repeat' split
    all_goals simp

theorem search_and_recommendations_never_raise_witness :
    semantic_search (fun _ _ => .error "RuntimeError: Ollama timeout")
      (fun _ _ => 0) (.ok [⟨1, none, 1, 1, some [1]⟩]) "laptop".toList 10
      none none none 0 = [] :=
  (search_and_recommendations_never_raise
    (fun _ _ => .error "RuntimeError: Ollama timeout") (fun _ _ => 0)
    (.ok [⟨1, none, 1, 1, some [1]⟩]) "laptop".toList 10 none none none 0
    [] [] 10 0 "semantic" "RuntimeError: Ollama timeout").2.1 rfl

/-! ## The centroid computation (claim C1) -/

theorem map_eq_map_range_getD {α β : Type} (d : α) (f : α → β) :
    ∀ l : List α, l.map f = (List.range l.length).map (fun i => f (l.getD i d))
  | [] => rfl
  | a :: l => by
    rw [List.map_cons, List.length_cons, List.range_succ_eq_map,
      List.map_cons, List.map_map]
    simp only [Function.comp_def, Nat.succ_eq_add_one,
      List.getD_cons_zero, List.getD_cons_succ]
    rw [map_eq_map_range_getD d f l]

theorem zipWith_range_map {α β γ : Type} (f : α → β → γ) (d : α) :
    ∀ (l : List α) (g : ℕ → β),
      List.zipWith f l ((List.range l.length).map g) =
        (List.range l.length).map (fun i => f (l.getD i d) (g i))
  | [], _ => rfl
  | a :: l, g => by
    rw [List.length_cons, List.range_succ_eq_map, List.map_cons,
      List.map_cons, List.zipWith_cons_cons, List.map_map, List.map_map]
    simp only [Function.comp_def, Nat.succ_eq_add_one,
      List.getD_cons_zero, List.getD_cons_succ]
    rw [zipWith_range_map f d l (fun i => g (i + 1))]

/-- `zip(*embeddings)` is the transpose whenever all the zipped lists share
one length `D`. -/
theorem zipStar_eq_transpose :
    ∀ (L : List (List ℚ)) (D : ℕ), L ≠ [] → (∀ e ∈ L, e.length = D) →
      zipStar L = (List.range D).map (fun i => L.map (fun e => e.getD i 0))
  | [], _, h, _ => absurd rfl h
  | [l], D, _, hlen => by
    have hl : l.length = D := hlen l (by simp)
    rw [zipStar, map_eq_map_range_getD 0 (fun x => [x]) l, hl]
    simp
  | l :: l' :: ls, D, _, hlen => by
    have ih := zipStar_eq_transpose (l' :: ls) D (List.cons_ne_nil l' ls)
      (fun e he => hlen e (List.mem_cons_of_mem l he))
    have hl : l.length = D := hlen l (by simp)
    rw [zipStar, ih, ← hl, zipWith_range_map (fun x t => x :: t) 0 l, hl]
    · apply List.map_congr_left
      intro i _
      rfl
    · exact fun h => absurd h (List.cons_ne_nil l' ls)

/-- C1: for every wishlist with at least one stored embedding, all of
dimension `D`, the centroid computed by the semantic recommendation
strategy has dimension `D` and its `i`-th component is the arithmetic
mean of the `i`-th components of the collected embeddings. -/
theorem recommendation_centroid_is_componentwise_mean
    (wishlist : List Product) (D : ℕ)
    (hne : wishlist_embeddings wishlist ≠ [])
    (hdim : ∀ e ∈ wishlist_embeddings wishlist, e.length = D) :
    (avg_embedding (wishlist_embeddings wishlist)).length = D ∧
    ∀ i < D, (avg_embedding (wishlist_embeddings wishlist)).getD i 0 =
      ((wishlist_embeddings wishlist).map (fun e => e.getD i 0)).sum /
        ((wishlist_embeddings wishlist).length : ℚ) := by
  have hz := zipStar_eq_transpose (wishlist_embeddings wishlist) D hne hdim
  rw [avg_embedding, hz]
  constructor
  · rw [List.length_map, List.length_map, List.length_range]
  · intro i hi
    have hlt : i < (((List.range D).map
        (fun i => (wishlist_embeddings wishlist).map (fun e => e.getD i 0))).map
        (fun dim => dim.sum / ((wishlist_embeddings wishlist).length : ℚ))).length := by
      simpa using hi
    rw [List.getD_eq_getElem _ _ hlt, List.getElem_map, List.getElem_map,
      List.getElem_range]

unseal Rat.add Rat.mul Rat.inv Rat.ofScientific in
theorem recommendation_centroid_is_componentwise_mean_witness :
    (avg_embedding (wishlist_embeddings
        [⟨1, none, 10, 4, some [1, 3]⟩, ⟨2, none, 20, 5, some [3, 5]⟩])).length = 2 ∧
    (avg_embedding (wishlist_embeddings
        [⟨1, none, 10, 4, some [1, 3]⟩, ⟨2, none, 20, 5, some [3, 5]⟩])).getD 0 0 =
      ((wishlist_embeddings
        [⟨1, none, 10, 4, some [1, 3]⟩, ⟨2, none, 20, 5, some [3, 5]⟩]).map
          (fun e => e.getD 0 0)).sum /
        ((wishlist_embeddings
          [⟨1, none, 10, 4, some [1, 3]⟩, ⟨2, none, 20, 5, some [3, 5]⟩]).length : ℚ) := by
  have h := recommendation_centroid_is_componentwise_mean
    [⟨1, none, 10, 4, some [1, 3]⟩, ⟨2, none, 20, 5, some [3, 5]⟩] 2
    (by decide) (by decide)
  exact ⟨h.1, h.2 0 (by decide)⟩

theorem semantic_ranking_ne_nil (similarity : Product → ℚ)
    (rows : List Product) (exclude_ids : List ℕ) (limit : ℕ)
    (min_similarity : ℚ)
    (hE : eligible_products rows exclude_ids ≠ []) (hl : 0 < limit) :
    semantic_ranking similarity rows exclude_ids limit min_similarity ≠ [] := by
  rw [semantic_ranking]
  split
  · exact rank_products_ne_nil _ hE hl
  · rename_i h
    by_cases heff : 0 < effective_threshold
        (eligible_products rows exclude_ids).length min_similarity
    · exact fun hnil => h ⟨hnil, heff⟩
    · rw [threshold_filtered, if_neg heff]
      exact rank_products_ne_nil _ hE hl

/-- C3: in semantic/hybrid recommendation, whenever the wishlist has at
least one stored embedding, the requested limit is positive, and at
least one eligible candidate (non-excluded, with a non-null embedding)
exists in the catalog, the helper returns a non-empty result — the
thresholded ranking query is re-run with no threshold when it comes back
empty with a positive effective threshold. -/
theorem semantic_secondary_fallback_nonempty
    (simOf : Embedding → Embedding → ℚ) (rows wishlist : List Product)
    (exclude_ids : List ℕ) (limit : ℕ) (min_similarity : ℚ)
    (hw : wishlist_embeddings wishlist ≠ []) (hl : 0 < limit)
    (hc : ∃ p ∈ rows, p.product_embedding.isSome = true ∧
      p.id ∉ exclude_ids) :
    ∃ res, _recommend_by_semantic_similarity simOf (.ok rows) wishlist
        exclude_ids limit min_similarity = .ok res ∧ res ≠ [] := by
  have hE : eligible_products rows exclude_ids ≠ [] := by
    obtain ⟨p, hp, hsome, hnx⟩ := hc
    refine List.ne_nil_of_mem (a := p) ?_
    rw [eligible_products, List.mem_filter]
    refine ⟨hp, ?_⟩
    simp only [Bool.and_eq_true, Bool.not_eq_true', hsome, true_and]
    rw [← Bool.not_eq_true]
    simpa using hnx
  refine ⟨semantic_ranking
    (fun p : Product => simOf (p.product_embedding.getD [])
      (avg_embedding (wishlist_embeddings wishlist)))
    rows exclude_ids limit min_similarity, ?_,
    semantic_ranking_ne_nil _ _ _ _ _ hE hl⟩
  rw [_recommend_by_semantic_similarity]
  simp [hw]

theorem semantic_secondary_fallback_nonempty_witness :
    ∃ res, _recommend_by_semantic_similarity (fun _ _ => 0)
        (.ok [⟨2, none, 1, 1, some [2]⟩]) [⟨1, none, 1, 1, some [1]⟩]
        [1] 10 0 = .ok res ∧ res ≠ [] :=
  semantic_secondary_fallback_nonempty (fun _ _ => 0)
    [⟨2, none, 1, 1, some [2]⟩] [⟨1, none, 1, 1, some [1]⟩] [1] 10 0
    (by decide) (by decide) (by decide)

theorem mem_search_candidates {p : Product} {similarity : Product → ℚ}
    {rows : List Product} {category : Option String}
    {min_price max_price : Option ℚ} {min_similarity : ℚ}
    (hp : p ∈ search_candidates similarity rows category min_price max_price
      min_similarity) :
    p.product_embedding.isSome = true ∧ categoryFilter category p = true ∧
    minPriceFilter min_price p = true ∧ maxPriceFilter max_price p = true ∧
    (0 < min_similarity → min_similarity ≤ similarity p) := by
  rw [search_candidates, List.mem_filter] at hp
  obtain ⟨hp, hmax⟩ := hp
  rw [List.mem_filter] at hp
  obtain ⟨hp, hmin⟩ := hp
  rw [List.mem_filter] at hp
  obtain ⟨hp, hcat⟩ := hp
  rw [similarity_filtered] at hp
  by_cases hms : 0 < min_similarity
  · rw [if_pos hms, List.mem_filter] at hp
    obtain ⟨hp, hsim⟩ := hp
    rw [embedded_rows, List.mem_filter] at hp
    exact ⟨hp.2, hcat, hmin, hmax, fun _ => of_decide_eq_true hsim⟩
  · rw [if_neg hms, embedded_rows, List.mem_filter] at hp
    exact ⟨hp.2, hcat, hmin, hmax, fun h => absurd h hms⟩

/-- C4: every pair returned by `semantic_search` has a non-null product
embedding, passes the category and price filters, and — whenever the
requested `min_similarity` is positive — has score at least
`min_similarity` (a zero `min_similarity` imposes no score constraint);
the returned list is sorted by score descending and has at most `limit`
entries. -/
theorem semantic_search_result_postconditions (provider : Provider)
    (simOf : Embedding → Embedding → ℚ) (db : Db) (query_text : PyStr)
    (limit : ℕ) (category : Option String) (min_price max_price : Option ℚ)
    (min_similarity : ℚ) :
    (∀ pr ∈ semantic_search provider simOf db query_text limit category
        min_price max_price min_similarity,
      pr.1.product_embedding.isSome = true ∧
      categoryFilter category pr.1 = true ∧
      minPriceFilter min_price pr.1 = true ∧
      maxPriceFilter max_price pr.1 = true ∧
      (0 < min_similarity → min_similarity ≤ pr.2)) ∧
    List.Sorted (fun a b : Product × ℚ => b.2 ≤ a.2)
      (semantic_search provider simOf db query_text limit category
        min_price max_price min_similarity) ∧
    (semantic_search provider simOf db query_text limit category
      min_price max_price min_similarity).length ≤ limit := by
  rw [semantic_search]
  split
  · exact ⟨fun pr hpr => absurd hpr (List.not_mem_nil pr),
      List.sorted_nil, Nat.zero_le _⟩
  · cases hp : provider (_preprocess_query query_text) true with
    | error e =>
      exact ⟨fun pr hpr => absurd hpr (List.not_mem_nil pr),
        List.sorted_nil, Nat.zero_le _⟩
    | ok qe =>
      cases db with
      | error e =>
        exact ⟨fun pr hpr => absurd hpr (List.not_mem_nil pr),
          List.sorted_nil, Nat.zero_le _⟩
      | ok rows =>
        refine ⟨?_, rank_products_sorted _ _ _, rank_products_length_le _ _ _⟩
        intro pr hpr
        obtain ⟨hmem, hscore⟩ := mem_rank_products hpr
        obtain ⟨hsome, hcat, hmin, hmax, hsim⟩ := mem_search_candidates hmem
        exact ⟨hsome, hcat, hmin, hmax, fun h => by rw [hscore]; exact hsim h⟩

theorem semantic_search_result_postconditions_witness :
    ((⟨1, none, 5, 3, some [2]⟩ : Product).product_embedding.isSome = true) ∧
    ((1 : ℚ) ≤ ((⟨1, none, 5, 3, some [2]⟩ : Product), (2 : ℚ)).2) := by
  have h := semantic_search_result_postconditions (fun _ _ => .ok [1])
    (fun e _ => e.headD 0) (.ok [⟨1, none, 5, 3, some [2]⟩])
    "laptop".toList 10 none none none 1
  have hm : ((⟨1, none, 5, 3, some [2]⟩ : Product), (2 : ℚ)) ∈
      semantic_search (fun _ _ => .ok [1]) (fun e _ => e.headD 0)
        (.ok [⟨1, none, 5, 3, some [2]⟩]) "laptop".toList 10 none none
        none 1 := by decide
  obtain ⟨hsome, _, _, _, hsim⟩ := h.1 _ hm
  exact ⟨hsome, hsim (by decide)⟩

/-! ## Preprocessing facts (claim C8) -/

theorem dropWhile_head_false {α : Type} (p : α → Bool) :
    ∀ (l : List α) (c : α) (cs : List α),
      l.dropWhile p = c :: cs → p c = false
  | [], c, cs, h => by simp at h
  | a :: l, c, cs, h => by
    rw [List.dropWhile_cons] at h
    by_cases hp : p a
    · rw [if_pos hp] at h
      exact dropWhile_head_false p l c cs h
    · rw [if_neg hp] at h
      cases h
      exact Bool.of_not_eq_true hp

theorem py_rstrip_cons_of_ne_nil {c : Char} {cs : PyStr}
    (h : py_rstrip (c :: cs) ≠ []) :
    py_rstrip (c :: cs) = c :: py_rstrip cs := by
  by_cases hc : py_rstrip cs = [] ∧ c.isWhitespace
  · exact absurd (by rw [py_rstrip]; simp [hc]) h
  · rw [py_rstrip]
    simp only [if_neg hc]

theorem py_split_aux_ne_nil :
    ∀ (s : PyStr) (acc : PyStr), acc ≠ [] →
      ∃ w ws, py_split_aux s acc = w :: ws ∧ w ≠ []
  | [], acc, hacc => by
    refine ⟨acc.reverse, [], ?_, by simpa using hacc⟩
    rw [py_split_aux, if_neg hacc]
  | c :: cs, acc, hacc => by
    rw [py_split_aux]
    by_cases hw : c.isWhitespace
    · rw [if_pos hw, if_neg hacc]
      exact ⟨acc.reverse, py_split_aux cs [], rfl, by simpa using hacc⟩
    · rw [if_neg hw]
      exact py_split_aux_ne_nil cs (c :: acc) (List.cons_ne_nil c acc)

theorem py_join_space_cons (w : PyStr) (ws : List PyStr) :
    ∃ t, py_join_space (w :: ws) = w ++ t := by
  cases ws with
  | nil => exact ⟨[], (List.append_nil w).symm⟩
  | cons r rs => exact ⟨' ' :: py_join_space (r :: rs), rfl⟩

/-- If the stripped query is non-empty, preprocessing yields a non-empty
string. -/
theorem preprocess_ne_nil_of_strip_ne_nil (query_text : PyStr)
    (hq : query_text ≠ []) (hs : py_strip query_text ≠ []) :
    _preprocess_query query_text ≠ [] := by
  rw [_preprocess_query, if_neg hq]
  obtain ⟨d, ds, ht⟩ :
      ∃ d ds, query_text.dropWhile Char.isWhitespace = d :: ds := by
    rcases hdw : query_text.dropWhile Char.isWhitespace with _ | ⟨d, ds⟩
    · rw [py_strip, hdw] at hs
      exact absurd rfl hs
    · exact ⟨d, ds, rfl⟩
  have hsc : py_strip query_text = d :: py_rstrip ds := by
    rw [py_strip, ht]
    exact py_rstrip_cons_of_ne_nil (by rw [py_strip, ht] at hs; exact hs)
  have hdws : d.isWhitespace = false :=
    dropWhile_head_false Char.isWhitespace query_text d ds ht
  have hsplit : ∃ w ws, py_split (py_strip query_text) = w :: ws ∧ w ≠ [] := by
    rw [hsc, py_split, py_split_aux, hdws]
    simp only [Bool.false_eq_true, if_false]
    exact py_split_aux_ne_nil (py_rstrip ds) [d] (List.cons_ne_nil d [])
  obtain ⟨w, ws, hws, hwne⟩ := hsplit
  rw [hws]
  obtain ⟨t, htj⟩ := py_join_space_cons w ws
  rw [py_lower, htj]
  intro hnil
  rw [List.map_eq_nil, List.append_eq_nil] at hnil
  exact hwne hnil.1

/-- C8: the raw query is preprocessed by trimming, collapsing whitespace
runs and lowercasing (`"  Laptop   GAMING "` becomes `"laptop gaming"`);
a query that is empty after preprocessing yields an empty search result
without the provider being consulted, and the search result depends on
the provider only through its value on the preprocessed query in query
mode. -/
theorem query_preprocessing_spec (query_text : PyStr)
    (provider provider₂ : Provider) (simOf : Embedding → Embedding → ℚ)
    (db : Db) (limit : ℕ) (category : Option String)
    (min_price max_price : Option ℚ) (min_similarity : ℚ) :
    _preprocess_query "  Laptop   GAMING ".toList = "laptop gaming".toList ∧
    (_preprocess_query query_text = [] →
      semantic_search provider simOf db query_text limit category min_price
        max_price min_similarity = []) ∧
    (provider (_preprocess_query query_text) true =
        provider₂ (_preprocess_query query_text) true →
      semantic_search provider simOf db query_text limit category min_price
          max_price min_similarity =
        semantic_search provider₂ simOf db query_text limit category
          min_price max_price min_similarity) := by
  refine ⟨by decide, fun hpre => ?_, fun hprov => ?_⟩
  · by_cases hq : query_text = []
    · rw [semantic_search, if_pos (Or.inl hq)]
    · by_cases hs : py_strip query_text = []
      · rw [semantic_search, if_pos (Or.inr hs)]
      · exact absurd hpre (preprocess_ne_nil_of_strip_ne_nil _ hq hs)
  · rw [semantic_search, semantic_search]
    split
    · rfl
    · rw [hprov]

theorem query_preprocessing_spec_witness :
    semantic_search (fun _ _ => .ok [1]) (fun _ _ => 0) (.ok [])
      "   ".toList 10 none none none 0 = [] ∧
    semantic_search (fun _ q => if q then .ok [1] else .error "x")
        (fun _ _ => 0) (.ok []) "laptop".toList 10 none none none 0 =
      semantic_search (fun _ _ => .ok [1]) (fun _ _ => 0) (.ok [])
        "laptop".toList 10 none none none 0 :=
  ⟨(query_preprocessing_spec "   ".toList (fun _ _ => .ok [1])
      (fun _ _ => .ok [1]) (fun _ _ => 0) (.ok []) 10 none none none 0).2.1
      (by decide),
    (query_preprocessing_spec "laptop".toList
      (fun _ q => if q then .ok [1] else .error "x") (fun _ _ => .ok [1])
      (fun _ _ => 0) (.ok []) 10 none none none 0).2.2 rfl⟩

/-! ## Dimension-mismatch behaviour (claim C5) -/

/-- C5 counterexample: a 200 response whose first embedding has dimension
3 (≠ 768) is returned as a success by `generate_embedding` — the
dimension mismatch does not surface as an error. -/
theorem dimension_mismatch_not_an_error :
    generate_embedding true (.ok ⟨200, [[1, 2, 3]]⟩) "abc".toList true =
      .ok [1, 2, 3] ∧
    ([1, 2, 3] : Embedding).length ≠ EMBEDDING_DIMENSION :=
  ⟨rfl, by decide⟩

/-- C5 amended: when the provider returns a 200 response whose embedding
has a dimension different from the configured `EMBEDDING_DIMENSION`, the
mismatch is only logged as a warning and the mismatched vector itself is
returned as a success; `generate_embedding` does not fail. -/
theorem dimension_mismatch_returned_as_success (e : Embedding)
    (rest : List Embedding) (text : PyStr) (is_query : Bool)
    (hg : ¬ (text = [] ∨ py_strip text = []))
    (hd : e.length ≠ EMBEDDING_DIMENSION) :
    generate_embedding true (.ok ⟨200, e :: rest⟩) text is_query = .ok e := by
  rw [generate_embedding, if_neg hg]
  simp

theorem dimension_mismatch_returned_as_success_witness :
    generate_embedding true (.ok ⟨200, [[1, 2, 3]]⟩) "abc".toList true =
      .ok [1, 2, 3] :=
  dimension_mismatch_returned_as_success [1, 2, 3] [] "abc".toList true
    (by decide) (by decide)

end CatalogIA
